import Mathlib

/-!
Shallow embedding of the Job/Pipeline Orchestrator and Compliance Ledger of the
multilingual dubbing backend (`backend/app/models/job.py`,
`backend/app/models/ethics.py`, `backend/app/services/ethics.py`,
`backend/app/services/dubbing.py`), together with theorems settling the
specification claims about them.

Python floats are modelled as `ℚ`, timestamps (`datetime.utcnow()`) as a `Nat`
clock value passed explicitly to every mutating operation, nullable columns as
`Option`, and raised exceptions as `Except String`.
-/

namespace Dubbing

/-- `JobStatus` enum from `models/job.py`. -/
inductive JobStatus
  | pending
  | running
  | completed
  | failed
  | cancelled
  | retrying
deriving DecidableEq, Repr

/-- A quality-metrics map, language code to metric name/value pairs
(the JSON `quality_metrics` column). -/
abbrev Metrics := List (String × List (String × ℚ))

/-- Per-language animated-video data as produced by the re-animation adapter:
`output_video_path` plus the optional `quality_metrics` entry read back by
`_apply_ethical_safeguards` via `video_data.get("quality_metrics", {})`. -/
structure VideoData where
  output_video_path : String
  quality_metrics : List (String × ℚ) := []
deriving DecidableEq, Repr

/-- The `output_data` JSON written by the pipeline on completion:
`{"videos": final_videos, "quality_metrics": quality_results}`. -/
structure OutputData where
  videos : List (String × VideoData) := []
  quality_metrics : Metrics := []
deriving DecidableEq, Repr

/-- `Job` model (`models/job.py`): the fields the state-machine operations
read or write.  `id` and `project_id` stand in for the UUID columns. -/
structure Job where
  id : Nat
  project_id : Nat
  status : JobStatus := .pending
  progress : ℚ := 0
  error_message : Option String := none
  retry_count : Nat := 0
  max_retries : Nat := 3
  input_video_path : String := ""
  target_languages : List String := []
  source_language : Option String := none
  enable_voice_cloning : Bool := true
  quality_mode : String := "structural"
  enable_emotion_preservation : Bool := true
  output_data : Option OutputData := none
  quality_metrics : Option Metrics := none
  worker_id : Option String := none
  task_id : Option String := none
  started_at : Option Nat := none
  completed_at : Option Nat := none
  updated_at : Nat := 0
  actual_duration : Option Int := none
deriving DecidableEq, Repr

namespace Job

/-- `Job.is_active`: status in {pending, running, retrying}. -/
def is_active (j : Job) : Bool :=
  j.status = .pending ∨ j.status = .running ∨ j.status = .retrying

/-- `Job.is_completed`. -/
def is_completed (j : Job) : Bool :=
  j.status = .completed

/-- `Job.has_failed`. -/
def has_failed (j : Job) : Bool :=
  j.status = .failed

/-- `Job.can_retry`: `retry_count < max_retries and status == FAILED`. -/
def can_retry (j : Job) : Bool :=
  j.retry_count < j.max_retries ∧ j.status = .failed

/-- The spec's notion of a terminal status: `completed` or `cancelled`. -/
def isTerminal (s : JobStatus) : Bool :=
  s = .completed ∨ s = .cancelled

/-- `Job.start(worker_id, task_id)`: sets `running`, stamps `started_at`;
the optional ids are written only when truthy. -/
def start (now : Nat) (worker_id task_id : Option String) (j : Job) : Job :=
  let j := { j with status := .running, started_at := some now, updated_at := now }
  let j := match worker_id with
    | some w => if w = "" then j else { j with worker_id := some w }
    | none => j
  match task_id with
  | some t => if t = "" then j else { j with task_id := some t }
  | none => j

/-- `Job.complete(output_data, quality_metrics)`: unconditionally sets
`completed`, `progress = 1.0`, stamps `completed_at`, stores the arguments
when truthy, and derives `actual_duration` when `started_at` is set. -/
def complete (now : Nat) (output : Option OutputData) (qm : Option Metrics)
    (j : Job) : Job :=
  let j := { j with status := .completed, progress := 1, completed_at := some now,
                    updated_at := now }
  let j := match output with
    | some o => { j with output_data := some o }
    | none => j
  let j := match qm with
    | some m => { j with quality_metrics := some m }
    | none => j
  match j.started_at with
  | some s => { j with actual_duration := some ((now : Int) - s) }
  | none => j

/-- `Job.fail(error_message)`: unconditionally sets `failed`, records the
message, and derives `actual_duration` when `started_at` is set. -/
def fail (now : Nat) (msg : String) (j : Job) : Job :=
  let j := { j with status := .failed, error_message := some msg, updated_at := now }
  match j.started_at with
  | some s => { j with actual_duration := some ((now : Int) - s) }
  | none => j

/-- `Job.retry()`: raises `ValueError` unless `can_retry`; otherwise sets
`retrying`, increments `retry_count`, clears the error message. -/
def retry (now : Nat) (j : Job) : Except String Job :=
  if ¬ j.can_retry then
    .error "Job cannot be retried"
  else
    .ok { j with status := .retrying, retry_count := j.retry_count + 1,
                 error_message := none, updated_at := now }

/-- `Job.cancel()`: raises `ValueError` if already completed; otherwise sets
`cancelled`. -/
def cancel (now : Nat) (j : Job) : Except String Job :=
  if j.is_completed then
    .error "Cannot cancel completed job"
  else
    .ok { j with status := .cancelled, updated_at := now }

/-- `Job.update_progress(progress)`: stores `max(0.0, min(1.0, progress))`
unconditionally — there is no terminal-status guard in the source. -/
def update_progress (now : Nat) (p : ℚ) (j : Job) : Job :=
  { j with progress := max 0 (min 1 p), updated_at := now }

end Job

/-- `ConsentRecord` model (`models/ethics.py`): the fields read or written by
the consent lifecycle. -/
structure ConsentRecord where
  id : Nat
  project_id : Nat
  consent_type : String := "voice"
  is_granted : Bool := false
  consent_document_path : Option String := none
  expiry_date : Option Nat := none
  is_verified : Bool := false
  verified_by : Option String := none
  verification_method : Option String := none
  granted_at : Option Nat := none
  revoked_at : Option Nat := none
  updated_at : Nat := 0
deriving DecidableEq, Repr

namespace ConsentRecord

/-- `ConsentRecord.is_active`: false when not granted or `revoked_at` is set;
false when an expiry exists and `now > expiry_date`; true otherwise. -/
def is_active (now : Nat) (c : ConsentRecord) : Bool :=
  if ¬ c.is_granted ∨ c.revoked_at.isSome then false
  else match c.expiry_date with
    | some e => if now > e then false else true
    | none => true

/-- `ConsentRecord.is_expired`. -/
def is_expired (now : Nat) (c : ConsentRecord) : Bool :=
  match c.expiry_date with
  | some e => now > e
  | none => false

/-- `ConsentRecord.grant_consent(document_path)`: sets `is_granted`, stamps
`granted_at`; the document path is stored only when truthy.  `revoked_at` is
never touched. -/
def grant_consent (now : Nat) (document_path : Option String)
    (c : ConsentRecord) : ConsentRecord :=
  let c := { c with is_granted := true, granted_at := some now, updated_at := now }
  match document_path with
  | some d => if d = "" then c else { c with consent_document_path := some d }
  | none => c

/-- `ConsentRecord.revoke_consent()`: clears `is_granted`, stamps `revoked_at`. -/
def revoke_consent (now : Nat) (c : ConsentRecord) : ConsentRecord :=
  { c with is_granted := false, revoked_at := some now, updated_at := now }

/-- `ConsentRecord.verify(verified_by, method)`. -/
def verify (now : Nat) (verified_by method : String) (c : ConsentRecord) :
    ConsentRecord :=
  { c with is_verified := true, verified_by := some verified_by,
           verification_method := some method, updated_at := now }

end ConsentRecord

/-- One lifecycle operation on a `ConsentRecord`, for stating invariants over
arbitrary operation sequences. -/
inductive ConsentOp
  | grant (now : Nat) (document_path : Option String)
  | revoke (now : Nat)
  | verify (now : Nat) (verified_by method : String)
deriving DecidableEq, Repr

/-- Apply one lifecycle operation. -/
def ConsentOp.apply (c : ConsentRecord) : ConsentOp → ConsentRecord
  | .grant now doc => c.grant_consent now doc
  | .revoke now => c.revoke_consent now
  | .verify now vb m => c.verify now vb m

/-- Apply a sequence of lifecycle operations, oldest first. -/
def ConsentOp.applyAll (c : ConsentRecord) (ops : List ConsentOp) : ConsentRecord :=
  ops.foldl ConsentOp.apply c

/-- `Project` model (`models/project.py`): the fields the orchestrator and
ledger read.  The ethics flags all default to true. -/
structure Project where
  id : Nat
  source_language : String := "auto"
  target_languages : List String := []
  require_consent : Bool := true
  enable_watermarking : Bool := true
  enable_provenance : Bool := true
deriving DecidableEq, Repr

/-- The watermark payload dict built by `apply_watermark`: project id and
timestamp (the `platform`/`version`/`ai_generated` entries are constants). -/
structure WatermarkPayload where
  project_id : Nat
  timestamp : Nat
deriving DecidableEq, Repr

/-- `WatermarkRecord` model (`models/ethics.py`). -/
structure WatermarkRecord where
  id : Nat
  project_id : Nat
  watermark_type : String := "invisible"
  watermark_method : String := "LSB"
  watermark_strength : ℚ := 1/10
  content_type : String := "unknown"
  content_path : String
  content_hash : String := ""
  payload_data : Option WatermarkPayload := none
  payload_hash : String := ""
  detection_key : String := ""
  is_detectable : Bool := true
  detection_confidence : Option ℚ := none
  psnr : Option ℚ := none
  ssim : Option ℚ := none
  created_at : Nat := 0
  updated_at : Nat := 0
deriving DecidableEq, Repr

/-- `WatermarkRecord.is_high_quality`: `psnr ≥ 40` and `ssim ≥ 0.95`
(both metrics must be present and truthy). -/
def WatermarkRecord.is_high_quality (r : WatermarkRecord) : Bool :=
  match r.psnr, r.ssim with
  | some p, some s => p ≠ 0 ∧ 40 ≤ p ∧ s ≠ 0 ∧ 95/100 ≤ s
  | _, _ => false

/-- `WatermarkRecord.is_robust`: `detection_confidence ≥ 0.9`. -/
def WatermarkRecord.is_robust (r : WatermarkRecord) : Bool :=
  match r.detection_confidence with
  | some c => c ≠ 0 ∧ 9/10 ≤ c
  | none => false

/-- One entry of the `processing_chain` JSON list: `add_processing_step`
writes `step`/`model`/`parameters`/`timestamp`; the chain seeded by the
orchestrator's ethics check instead carries `step`/`timestamp`/`status`. -/
structure ChainStep where
  step : String
  model : Option String := none
  parameters : List (String × String) := []
  timestamp : Nat
  status : Option String := none
deriving DecidableEq, Repr

/-- The C2PA manifest dict built by `create_provenance_record`: its varying
parts are the two embedded timestamps; the generator strings are constants. -/
structure C2paManifest where
  claim_generator : String := "Multilingual AI Dubbing Platform v1.0.0"
  action_when : Nat
  signature_time : Nat
deriving DecidableEq, Repr

/-- `ProvenanceRecord` model (`models/ethics.py`). -/
structure ProvenanceRecord where
  id : Nat
  project_id : Nat
  content_type : String := "unknown"
  content_path : String
  content_hash : String := ""
  processing_chain : List ChainStep
  models_used : List String := []
  source_content_hash : Option String := none
  generation_timestamp : Nat := 0
  generation_parameters : List (String × String) := []
  c2pa_manifest : Option C2paManifest := none
  c2pa_signature : Option String := none
  human_review : Bool := false
  human_reviewer : Option String := none
  review_notes : Option String := none
  created_at : Nat := 0
  updated_at : Nat := 0
deriving DecidableEq, Repr

/-- Python truthiness of a nullable string column. -/
def truthyStr : Option String → Bool
  | some s => s ≠ ""
  | none => false

/-- `ProvenanceRecord.is_c2pa_compliant`: `bool(c2pa_manifest and
c2pa_signature)`. -/
def ProvenanceRecord.is_c2pa_compliant (r : ProvenanceRecord) : Bool :=
  r.c2pa_manifest.isSome && truthyStr r.c2pa_signature

/-- `ProvenanceRecord.processing_step_count`. -/
def ProvenanceRecord.processing_step_count (r : ProvenanceRecord) : Nat :=
  r.processing_chain.length

/-- `ProvenanceRecord.add_processing_step(step_name, model_name, parameters,
timestamp)`: appends one step to the chain, records the model when new, and
stamps `updated_at`. -/
def ProvenanceRecord.add_processing_step (now : Nat) (step_name model_name : String)
    (parameters : List (String × String)) (timestamp : Option Nat)
    (r : ProvenanceRecord) : ProvenanceRecord :=
  let step : ChainStep :=
    { step := step_name, model := some model_name, parameters
      timestamp := timestamp.getD now }
  { r with processing_chain := r.processing_chain ++ [step]
           models_used := if model_name ∈ r.models_used then r.models_used
                          else r.models_used ++ [model_name]
           updated_at := now }

/-- `ProvenanceRecord.add_human_review(reviewer, notes)`. -/
def ProvenanceRecord.add_human_review (now : Nat) (reviewer : String)
    (notes : Option String) (r : ProvenanceRecord) : ProvenanceRecord :=
  let r := { r with human_review := true, human_reviewer := some reviewer,
                    updated_at := now }
  match notes with
  | some n => if n = "" then r else { r with review_notes := some n }
  | none => r

/-! ### Path helpers (`os.path.splitext` and `_apply_watermark_to_file`) -/

/-- Index of the last occurrence of `c` in `cs`, or `none`
(`str.rfind` with `-1` mapped to `none`). -/
def rfindIdx (c : Char) (cs : List Char) : Option Nat :=
  match cs.reverse.findIdx? (· = c) with
  | some i => some (cs.length - 1 - i)
  | none => none

/-- Split a name at `dotIndex` when it lies after `sepIndex` (the last path
separator) and some character strictly between them is not a dot
(`genericpath._splitext`). -/
def splitextAux (cs : List Char) (sepIndex dotIndex : Int) :
    List Char × List Char :=
  if sepIndex < dotIndex then
    if (List.range (dotIndex.toNat - (sepIndex + 1).toNat)).any
        (fun k => cs.get? ((sepIndex + 1).toNat + k) ≠ some '.') then
      (cs.take dotIndex.toNat, cs.drop dotIndex.toNat)
    else (cs, [])
  else (cs, [])

/-- `os.path.splitext` on a character list: split at the last dot when it
lies after the last path separator and the base name is not all dots. -/
def splitextCore (cs : List Char) : List Char × List Char :=
  splitextAux cs
    (match rfindIdx '/' cs with | some i => (i : Int) | none => -1)
    (match rfindIdx '.' cs with | some i => (i : Int) | none => -1)

/-- `os.path.splitext` on strings. -/
def splitext (p : String) : String × String :=
  let pr := splitextCore p.toList
  (String.mk pr.1, String.mk pr.2)

/-- `_apply_watermark_to_file`: the returned reference is
`f"{base_name}_watermarked{ext}"` (the embedding itself is a file copy, pure
I/O with no ledger effect). -/
def watermarkedPath (p : String) : String :=
  let pr := splitextCore p.toList
  String.mk (pr.1 ++ "_watermarked".toList ++ pr.2)

/-- `EthicsService._get_content_type`: classify by lower-cased extension. -/
def getContentType (p : String) : String :=
  let ext := (splitext p).2.toLower
  if ext ∈ [".mp4", ".avi", ".mov", ".mkv"] then "video"
  else if ext ∈ [".wav", ".mp3", ".aac", ".flac"] then "audio"
  else if ext ∈ [".jpg", ".jpeg", ".png", ".bmp"] then "image"
  else "unknown"

/-! ### The ethics service over an explicit ledger state -/

/-- The database state the ethics service reads and writes; `nextId` models
the UUID generator (fresh ids for new rows). -/
structure Ledger where
  consents : List ConsentRecord := []
  watermarks : List WatermarkRecord := []
  provenance : List ProvenanceRecord := []
  nextId : Nat := 0
deriving DecidableEq, Repr

/-- The external collaborators of the ethics service: the file system
(existence checks and SHA-256 content hashes) and the payload/manifest hash
primitives (`hashlib` over JSON dumps). -/
structure EthicsEnv where
  fileExists : String → Bool
  fileHash : String → String
  payloadSha : WatermarkPayload → String
  payloadMd5 : WatermarkPayload → String
  manifestSha : C2paManifest → String

/-- Result of `check_consent_status`. -/
structure ConsentStatus where
  has_consent : Bool
  consent_count : Nat
  consent_types : List String
deriving DecidableEq, Repr

/-- `EthicsService.check_consent_status(project_id)`: granted records of the
project, narrowed to the active ones. -/
def checkConsentStatus (now : Nat) (led : Ledger) (pid : Nat) : ConsentStatus :=
  let granted := led.consents.filter
    (fun c => c.project_id = pid ∧ c.is_granted = true)
  let active := granted.filter (fun c => c.is_active now)
  { has_consent := active.length > 0
    consent_count := active.length
    consent_types := active.map (·.consent_type) }

/-- `settings.WATERMARK_STRENGTH` (default 0.1). -/
def WATERMARK_STRENGTH : ℚ := 1/10

/-- The `WatermarkRecord` row that `apply_watermark` persists. -/
def mkWatermarkRecord (env : EthicsEnv) (now : Nat) (led : Ledger) (pid : Nat)
    (content_path watermark_type watermark_method : String)
    (strength : Option ℚ) : WatermarkRecord :=
  let payload : WatermarkPayload := { project_id := pid, timestamp := now }
  { id := led.nextId
    project_id := pid
    watermark_type
    watermark_method
    watermark_strength := strength.getD WATERMARK_STRENGTH
    content_type := getContentType content_path
    content_path := watermarkedPath content_path
    content_hash := env.fileHash content_path
    payload_data := some payload
    payload_hash := env.payloadSha payload
    detection_key := env.payloadMd5 payload
    is_detectable := true
    detection_confidence := some (95/100)
    created_at := now
    updated_at := now }

/-- `EthicsService.apply_watermark(project_id, content_path, ...)`: raises
`FileNotFoundError` when the artifact is missing; otherwise derives the
watermarked reference, persists a fresh `WatermarkRecord`, and returns the
new reference. -/
def applyWatermark (env : EthicsEnv) (now : Nat) (led : Ledger) (pid : Nat)
    (content_path : String) (watermark_type : String := "invisible")
    (watermark_method : String := "LSB") (strength : Option ℚ := none) :
    Except String (String × Ledger) :=
  if ¬ env.fileExists content_path then
    .error ("Content file not found: " ++ content_path)
  else
    let record := mkWatermarkRecord env now led pid content_path
      watermark_type watermark_method strength
    .ok (record.content_path,
         { led with watermarks := led.watermarks ++ [record]
                    nextId := led.nextId + 1 })

/-- `EthicsService.create_provenance_record(...)`: hashes the artifact
(raising `FileNotFoundError` when missing), builds the C2PA manifest and its
signature, and persists a fresh `ProvenanceRecord`. -/
def createProvenanceRecord (env : EthicsEnv) (now : Nat) (led : Ledger)
    (pid : Nat) (content_path : String) (processing_chain : List ChainStep)
    (source_content_hash : Option String := none)
    (generation_parameters : Option (List (String × String)) := none) :
    Except String (ProvenanceRecord × Ledger) :=
  if ¬ env.fileExists content_path then
    .error ("No such file or directory: " ++ content_path)
  else
    let manifest : C2paManifest := { action_when := now, signature_time := now }
    let record : ProvenanceRecord :=
      { id := led.nextId
        project_id := pid
        content_type := getContentType content_path
        content_path
        content_hash := env.fileHash content_path
        processing_chain
        source_content_hash
        generation_timestamp := now
        generation_parameters := generation_parameters.getD []
        c2pa_manifest := some manifest
        c2pa_signature := some (env.manifestSha manifest)
        created_at := now
        updated_at := now }
    .ok (record, { led with provenance := led.provenance ++ [record]
                            nextId := led.nextId + 1 })

/-- The processing-step dict handed to `update_provenance_record`:
`step`, optional `model` (`.get` defaulting to `"unknown"`), `timestamp`,
and the remaining keys (the whole dict is also passed as `parameters`). -/
structure StepInput where
  step : String
  model : Option String := none
  timestamp : Nat
  parameters : List (String × String) := []
deriving DecidableEq, Repr

/-- The SQL `ORDER BY created_at DESC ... FIRST` lookup: index and value of
the first record of the project with maximal `created_at`. -/
def selectMostRecent (pid : Nat) : List ProvenanceRecord →
    Option (Nat × ProvenanceRecord)
  | [] => none
  | r :: rs =>
    match selectMostRecent pid rs with
    | none => if r.project_id = pid then some (0, r) else none
    | some (i, best) =>
      if r.project_id = pid then
        if best.created_at > r.created_at then some (i + 1, best)
        else some (0, r)
      else some (i + 1, best)

/-- `EthicsService.update_provenance_record(project_id, processing_step)`:
appends one step to the most recently created `ProvenanceRecord` of the
project; silently does nothing when the project has none. -/
def updateProvenanceRecord (now : Nat) (led : Ledger) (pid : Nat)
    (step : StepInput) : Ledger :=
  match selectMostRecent pid led.provenance with
  | none => led
  | some (i, r) =>
    let updated := r.add_processing_step now step.step (step.model.getD "unknown")
      step.parameters (some step.timestamp)
    { led with provenance := led.provenance.set i updated }

/-- The consent block of `_calculate_compliance_score` (30 points): full
marks when consent is not required, or when an active consent exists. -/
def consentComponent (now : Nat) (consents : List ConsentRecord)
    (project : Project) : ℚ :=
  if project.require_consent then
    if (consents.filter (fun r => r.is_active now)).length > 0 then 30 else 0
  else 30

/-- The watermarking block of `_calculate_compliance_score` (30 points):
`min(30, avg_quality * 30)` with `avg_quality` the mean of
`(psnr or 0)/40 + (ssim or 0)` over the records — note the source does not
halve this sum; 0 when enabled with no records; flat 30 when disabled. -/
def watermarkComponent (wms : List WatermarkRecord) (project : Project) : ℚ :=
  if project.enable_watermarking then
    if wms.length > 0 then
      min 30 ((((wms.map (fun r => (r.psnr.getD 0) / 40 + r.ssim.getD 0)).sum
        / (wms.length : ℚ))) * 30)
    else 0
  else 30

/-- The provenance block of `_calculate_compliance_score` (40 points): 20
per fraction of C2PA-compliant records and 20 per fraction human-reviewed;
0 when enabled with no records; flat 40 when disabled. -/
def provenanceComponent (provs : List ProvenanceRecord) (project : Project) : ℚ :=
  if project.enable_provenance then
    if provs.length > 0 then
      (((provs.filter (fun r => r.is_c2pa_compliant)).length : ℚ) / (provs.length : ℚ)) * 20
        + (((provs.filter (fun r => r.human_review)).length : ℚ) / (provs.length : ℚ)) * 20
    else 0
  else 40

/-- `EthicsService._calculate_compliance_score(consent_records,
watermark_records, provenance_records, project)`: the three blocks summed,
clamped to at most 100. -/
def calculateComplianceScore (now : Nat) (consents : List ConsentRecord)
    (wms : List WatermarkRecord) (provs : List ProvenanceRecord)
    (project : Project) : ℚ :=
  min 100 (consentComponent now consents project + watermarkComponent wms project
    + provenanceComponent provs project)

/-- The compliance score exactly as the claim words it (for comparison with
`calculateComplianceScore`): the watermark contribution is 30 scaled by the
average of `(snr/40 + ssim)/2`, with no cap, and the total is not clamped.
Averages over an empty record list are read as 0 (`x / 0 = 0` in `ℚ`). -/
def specComplianceScore (now : Nat) (consents : List ConsentRecord)
    (wms : List WatermarkRecord) (provs : List ProvenanceRecord)
    (project : Project) : ℚ :=
  let consentScore : ℚ :=
    if ¬ project.require_consent ∨ (consents.any (fun r => r.is_active now)) = true
    then 30 else 0
  let wmScore : ℚ :=
    if project.enable_watermarking then
      30 * ((wms.map (fun r => ((r.psnr.getD 0) / 40 + r.ssim.getD 0) / 2)).sum
              / (wms.length : ℚ))
    else 30
  let provScore : ℚ :=
    if project.enable_provenance then
      20 * (((provs.filter (fun r => r.is_c2pa_compliant)).length : ℚ) / (provs.length : ℚ))
        + 20 * (((provs.filter (fun r => r.human_review)).length : ℚ) / (provs.length : ℚ))
    else 40
  consentScore + wmScore + provScore

/-! ### The dubbing pipeline orchestrator (`services/dubbing.py`) -/

/-- One AI stage adapter invocation, recorded as ghost instrumentation so
that "stage X was never invoked" is observable in the embedding. -/
inductive StageCall
  | asr
  | translationStage (lang : String)
  | synthesis (lang : String)
  | faceAnimation (lang : String)
deriving DecidableEq, Repr

/-- ASR adapter response (`/transcribe`): `text` plus an optional detected
`language` (the orchestrator reads it with `.get("language", "en")`). -/
structure Transcript where
  text : String
  language : Option String := none
deriving DecidableEq, Repr

/-- Translation adapter response (`/translate`). -/
structure TranslationResult where
  translated_text : String
deriving DecidableEq, Repr

/-- Synthesis adapter response (`/synthesize`). -/
structure AudioResult where
  audio_path : String
deriving DecidableEq, Repr

/-- The four external AI stage adapters.  Each call is a network request the
orchestrator does not define; a `.error` is any non-success outcome
(`raise_for_status`, timeout).  Arguments mirror the request payloads:
transcribe (audio path, source language), translate (text, source, target),
synthesize (text, language, speaker reference), animate (video path, audio
path, mode, preserve pose, preserve expression). -/
structure StageEnv where
  transcribe : String → Option String → Except String Transcript
  translate : String → String → String → Except String TranslationResult
  synthesize : String → String → Option String → Except String AudioResult
  animate : String → String → String → Bool → Bool → Except String VideoData

/-- The persisted backend state the orchestrator touches. -/
structure SystemState where
  jobs : List Job := []
  projects : List Project := []
  ledger : Ledger := {}
deriving Repr

/-- Per-language fan-out over the target-language list (the sequential `for`
loop of `_run_translation`): returns the languages actually called (the loop
stops at the first adapter failure) and the collected results. -/
def fanOutLangs {α : Type} (call : String → Except String α) :
    List String → List String × Except String (List (String × α))
  | [] => ([], .ok [])
  | lang :: rest =>
    match call lang with
    | .error e => ([lang], .error e)
    | .ok a =>
      let pr := fanOutLangs call rest
      (lang :: pr.1, pr.2.map (fun xs => (lang, a) :: xs))

/-- Per-language fan-out over the previous stage's keyed results (the
sequential `for lang, data in ....items()` loops of `_run_voice_synthesis`
and `_run_face_animation`). -/
def fanOutPairs {α β : Type} (call : String → β → Except String α) :
    List (String × β) → List String × Except String (List (String × α))
  | [] => ([], .ok [])
  | (lang, b) :: rest =>
    match call lang b with
    | .error e => ([lang], .error e)
    | .ok a =>
      let pr := fanOutPairs call rest
      (lang :: pr.1, pr.2.map (fun xs => (lang, a) :: xs))

/-- The mock per-language quality result of `_run_quality_checks`. -/
def mockQuality : List (String × ℚ) :=
  [("lse_c", 87/100), ("fid", 123/10), ("au_correlation", 78/100),
   ("bleu", 385/10), ("overall_score", 85/100)]

/-- `_run_quality_checks`: one mock metric set per language. -/
def runQualityChecks (videos : List (String × VideoData)) : Metrics :=
  videos.map (fun v => (v.1, mockQuality))

/-- The processing-step dict `_apply_ethical_safeguards` hands to
`update_provenance_record` for one language. -/
def faceAnimationStep (now : Nat) (lang : String) : StepInput :=
  { step := "face_animation", model := some "DAE-Talker", timestamp := now
    parameters := [("language", lang)] }

/-- `_apply_ethical_safeguards`: per output video, watermark it when the
project enables watermarking (replacing the artifact reference), then append
a face-animation provenance step; ledger writes made before a failure
persist (each is committed), and a `FileNotFoundError` from
`apply_watermark` aborts the loop. -/
def applyEthicalSafeguards (eenv : EthicsEnv) (now : Nat) (project : Project)
    (led : Ledger) :
    List (String × VideoData) → Ledger × Except String (List (String × VideoData))
  | [] => (led, .ok [])
  | (lang, video) :: rest =>
    if project.enable_watermarking then
      match applyWatermark eenv now led project.id video.output_video_path
          "invisible" "LSB" none with
      | .error e => (led, .error e)
      | .ok (wp, led1) =>
        let video := { video with output_video_path := wp }
        let led2 := updateProvenanceRecord now led1 project.id
          (faceAnimationStep now lang)
        let pr := applyEthicalSafeguards eenv now project led2 rest
        (pr.1, pr.2.map (fun xs => (lang, video) :: xs))
    else
      let led2 := updateProvenanceRecord now led project.id
        (faceAnimationStep now lang)
      let pr := applyEthicalSafeguards eenv now project led2 rest
      (pr.1, pr.2.map (fun xs => (lang, video) :: xs))

/-- Outcome of the `try:` block of `process_dubbing_job`: the job after all
its in-memory mutations (including the terminal `complete`/`fail`), the
ledger after all committed writes, and the ghost trace of AI adapter calls. -/
structure PipelineOutcome where
  job : Job
  ledger : Ledger
  trace : List StageCall

/-- The body of `process_dubbing_job`'s `try:` block, applied to the already
started job: ethics pre-check (consent, then initial provenance record), ASR,
translation, synthesis, face animation, quality checks, ethical safeguards,
completion.  The first raised error ends the run via `job.fail`. -/
def runPipelineBody (env : StageEnv) (eenv : EthicsEnv) (now : Nat)
    (st : SystemState) (job : Job) : PipelineOutcome :=
  match st.projects.find? (fun p => p.id = job.project_id) with
  | none =>
    -- `job.project` dereferences a missing row: the raised error fails the job
    { job := job.fail now "project not found", ledger := st.ledger, trace := [] }
  | some project =>
    if project.require_consent = true ∧
        (checkConsentStatus now st.ledger project.id).has_consent = false then
      { job := job.fail now "Consent required but not provided"
        ledger := st.ledger, trace := [] }
    else
      match createProvenanceRecord eenv now st.ledger project.id
          job.input_video_path
          [{ step := "ethics_check", timestamp := now, status := some "passed" }] with
      | .error e => { job := job.fail now e, ledger := st.ledger, trace := [] }
      | .ok pr1 =>
        let led1 := pr1.2
        match env.transcribe job.input_video_path job.source_language with
        | .error e => { job := job.fail now e, ledger := led1, trace := [.asr] }
        | .ok transcript =>
          let job := job.update_progress now (2/10)
          let tpr := fanOutLangs
            (fun lang => env.translate transcript.text
              (transcript.language.getD "en") lang)
            job.target_languages
          let trace := .asr :: tpr.1.map StageCall.translationStage
          match tpr.2 with
          | .error e => { job := job.fail now e, ledger := led1, trace }
          | .ok translations =>
            let job := job.update_progress now (4/10)
            let spr := fanOutPairs
              (fun lang t => env.synthesize t.translated_text lang
                (if job.enable_voice_cloning then some job.input_video_path
                 else none))
              translations
            let trace := trace ++ spr.1.map StageCall.synthesis
            match spr.2 with
            | .error e => { job := job.fail now e, ledger := led1, trace }
            | .ok audios =>
              let job := job.update_progress now (6/10)
              let apr := fanOutPairs
                (fun _lang a => env.animate job.input_video_path a.audio_path
                  job.quality_mode true job.enable_emotion_preservation)
                audios
              let trace := trace ++ apr.1.map StageCall.faceAnimation
              match apr.2 with
              | .error e => { job := job.fail now e, ledger := led1, trace }
              | .ok videos =>
                let job := job.update_progress now (8/10)
                let quality := runQualityChecks videos
                let sf := applyEthicalSafeguards eenv now project led1 videos
                match sf.2 with
                | .error e => { job := job.fail now e, ledger := sf.1, trace }
                | .ok finalVideos =>
                  let job := job.update_progress now 1
                  let job := job.complete now
                    (some { videos := finalVideos, quality_metrics := quality })
                    (some quality)
                  { job, ledger := sf.1, trace }

/-- `DubbingService.process_dubbing_job(job_id)`: looks the job up — logging
and returning normally (no exception, no mutation) when it does not exist —
otherwise starts it and runs the pipeline body, persisting the mutated job
and ledger.  The second component is the ghost adapter-call trace; the
`Except` layer carries exceptions escaping to the caller, which this
function never produces (its `try/except` converts every pipeline error into
a job failure). -/
def processDubbingJob (env : StageEnv) (eenv : EthicsEnv) (now : Nat)
    (st : SystemState) (jid : Nat) :
    Except String SystemState × List StageCall :=
  match st.jobs.find? (fun j => j.id = jid) with
  | none => (.ok st, [])
  | some job =>
    let started := job.start now none none
    let out := runPipelineBody env eenv now st started
    (.ok { st with
            jobs := st.jobs.map (fun j0 => if j0.id = jid then out.job else j0)
            ledger := out.ledger },
     out.trace)

/-- `DubbingService.cancel_job(job_id)`: unlike `process_dubbing_job`, this
lookup miss raises (`ValueError("Job not found")`), as does cancelling a
completed job. -/
def cancelJob (now : Nat) (st : SystemState) (jid : Nat) :
    Except String SystemState :=
  match st.jobs.find? (fun j => j.id = jid) with
  | none => .error "Job not found"
  | some job =>
    match job.cancel now with
    | .error e => .error e
    | .ok j2 =>
      .ok { st with jobs := st.jobs.map (fun j0 => if j0.id = jid then j2 else j0) }

/-! ### Concrete records used as witnesses and counterexamples -/

/-- A completed job with progress 1, for exercising terminal-state behaviour. -/
def jobCompletedEx : Job :=
  { id := 1, project_id := 1, status := .completed, progress := 1 }

/-- A pending job with progress 0. -/
def jobPendingEx : Job :=
  { id := 2, project_id := 1 }

/-- A failed job with retries left. -/
def jobFailedEx : Job :=
  { id := 3, project_id := 1, status := .failed, retry_count := 2,
    error_message := some "boom" }

/-- A failed job whose retry budget is exhausted. -/
def jobExhaustedEx : Job :=
  { id := 4, project_id := 1, status := .failed, retry_count := 3, max_retries := 3 }

/-- A granted, unrevoked consent expiring at time 5. -/
def consentExpiringEx : ConsentRecord :=
  { id := 1, project_id := 1, is_granted := true, expiry_date := some 5 }

/-- An ethics environment over a world where every file exists; the hash
primitives return fixed digests. -/
def ethicsEnvEx : EthicsEnv :=
  { fileExists := fun _ => true
    fileHash := fun _ => "deadbeef"
    payloadSha := fun _ => "payloadsha"
    payloadMd5 := fun _ => "payloadmd5"
    manifestSha := fun _ => "manifestsig" }

/-- Stage adapters that always fail — the scenarios exercised never reach
them. -/
def stageEnvEx : StageEnv :=
  { transcribe := fun _ _ => .error "unreachable"
    translate := fun _ _ _ => .error "unreachable"
    synthesize := fun _ _ _ => .error "unreachable"
    animate := fun _ _ _ _ _ => .error "unreachable" }

/-- The ledger after one `apply_watermark` of `"a.mp4"` on an empty ledger. -/
def wmLedgerAfterFirst : Ledger :=
  { watermarks := [mkWatermarkRecord ethicsEnvEx 7 {} 1 "a.mp4" "invisible" "LSB" none]
    nextId := 1 }

/-- The ledger after a second `apply_watermark` of the same `"a.mp4"`. -/
def wmLedgerAfterSecond : Ledger :=
  { watermarks := [mkWatermarkRecord ethicsEnvEx 7 {} 1 "a.mp4" "invisible" "LSB" none,
                   mkWatermarkRecord ethicsEnvEx 8 wmLedgerAfterFirst 1 "a.mp4"
                     "invisible" "LSB" none]
    nextId := 2 }

/-- A watermark record with `psnr = 20`, `ssim = 0.5`. -/
def wmRecordEx : WatermarkRecord :=
  { id := 0, project_id := 1, content_path := "v_watermarked.mp4"
    psnr := some 20, ssim := some (1/2) }

/-- A project with watermarking enabled and the other ledger features off. -/
def projectWmEx : Project :=
  { id := 1, require_consent := false, enable_watermarking := true
    enable_provenance := false }

/-- A face-animation processing-step input. -/
def stepInputEx : StepInput :=
  { step := "face_animation", model := some "DAE-Talker", timestamp := 7
    parameters := [("language", "es")] }

/-- A provenance record with one (ethics-check) step. -/
def provRecordEx : ProvenanceRecord :=
  { id := 0, project_id := 1, content_path := "v.mp4"
    processing_chain := [{ step := "ethics_check", timestamp := 3, status := some "passed" }]
    created_at := 3 }

/-- A ledger holding `provRecordEx` only. -/
def ledgerProvEx : Ledger := { provenance := [provRecordEx], nextId := 1 }

/-- A pending full-dubbing job for project 1. -/
def jobConsentEx : Job :=
  { id := 1, project_id := 1, input_video_path := "v.mp4", target_languages := ["es"] }

/-- Project 1, requiring consent. -/
def projectConsentEx : Project := { id := 1, require_consent := true }

/-- Backend state: the pending job and its consent-requiring project, with an
empty ledger (no consent records at all). -/
def stPipelineEx : SystemState :=
  { jobs := [jobConsentEx], projects := [projectConsentEx] }

/-- Backend state with no jobs at all. -/
def stNoJobsEx : SystemState := { projects := [projectConsentEx] }

/-! ### C1 — terminal-status immutability -/

/-- C1 counterexample: the claim says `update_progress(p)` on a terminal job
leaves the job unchanged, but on a completed job (progress 1) the source
stores `clamp(p)` unconditionally: progress drops from 1 to 1/2. -/
theorem c1_terminal_counterexample :
    Job.isTerminal jobCompletedEx.status = true ∧
    (jobCompletedEx.update_progress 5 (1/2)).progress ≠ jobCompletedEx.progress := by
  constructor
  · rfl
  · intro h
    simp [Job.update_progress, jobCompletedEx] at h
    norm_num at h

/-- C1 amended: terminal statuses are not immutable. On a terminal job,
`update_progress(p)` overwrites `progress` with the clamp of `p` (changing the
job whenever that differs from the stored value), `fail()` always moves the
status to `failed` (a change, since the job was terminal), and `complete()` on
a cancelled job moves the status to `completed`. -/
theorem c1_terminal_not_immutable (j : Job) (now : Nat) (p : ℚ) (msg : String)
    (hterm : Job.isTerminal j.status = true)
    (hp : j.progress ≠ max 0 (min 1 p)) :
    j.update_progress now p ≠ j ∧
    (j.fail now msg).status = .failed ∧ (j.fail now msg).status ≠ j.status ∧
    (j.status = .cancelled → (j.complete now none none).status = .completed) := by
  have hfail : (j.fail now msg).status = .failed := by
    rcases hj : j.started_at with _ | s <;> simp [Job.fail, hj]
  refine ⟨?_, hfail, ?_, ?_⟩
  · intro heq
    exact hp (by rw [← congrArg Job.progress heq]; rfl)
  · rw [hfail]
    intro hst
    rw [← hst] at hterm
    simp [Job.isTerminal] at hterm
  · intro _
    rcases hj : j.started_at with _ | s <;> simp [Job.complete, hj]

/-- C1 witness: concrete instantiation at a completed job and `p = 1/2`. -/
theorem c1_terminal_not_immutable_witness :
    jobCompletedEx.update_progress 5 (1/2) ≠ jobCompletedEx ∧
    (jobCompletedEx.fail 5 "late").status = .failed ∧
    (jobCompletedEx.fail 5 "late").status ≠ jobCompletedEx.status ∧
    (jobCompletedEx.status = .cancelled →
      (jobCompletedEx.complete 5 none none).status = .completed) :=
  c1_terminal_not_immutable jobCompletedEx 5 (1/2) "late" (by decide) (by
    simp [jobCompletedEx]
    norm_num)

/-! ### C2 — retry contract -/

/-- C2 confirmed: `retry()` succeeds exactly when `status == failed` and
`retry_count < max_retries`; on success it sets `retrying`, increments
`retry_count`, and clears the error; otherwise it raises (the source's
`ValueError("Job cannot be retried")`, the spec's `InvalidTransition`) and,
the operation being functional, no field is mutated. -/
theorem c2_retry_contract (j : Job) (now : Nat) :
    ((∃ j', j.retry now = .ok j') ↔
      j.status = .failed ∧ j.retry_count < j.max_retries) ∧
    (∀ j', j.retry now = .ok j' →
      j'.status = .retrying ∧ j'.retry_count = j.retry_count + 1 ∧
      j'.error_message = none ∧ j'.progress = j.progress ∧
      j'.max_retries = j.max_retries) ∧
    (¬ (j.status = .failed ∧ j.retry_count < j.max_retries) →
      j.retry now = .error "Job cannot be retried") := by
  have hcr : j.can_retry = true ↔
      j.status = .failed ∧ j.retry_count < j.max_retries := by
    simp [Job.can_retry, and_comm]
  refine ⟨?_, ?_, ?_⟩
  · constructor
    · rintro ⟨j', hj'⟩
      unfold Job.retry at hj'
      by_cases h : j.can_retry = true
      · exact hcr.mp h
      · simp [h] at hj'
    · intro h
      have hc : j.can_retry = true := hcr.mpr h
      refine ⟨{ j with
                status := .retrying
                retry_count := j.retry_count + 1
                error_message := none
                updated_at := now }, ?_⟩
      unfold Job.retry
      simp [hc]
  · intro j' hj'
    unfold Job.retry at hj'
    by_cases h : j.can_retry = true
    · simp [h] at hj'
      rw [← hj']
      exact ⟨rfl, rfl, rfl, rfl, rfl⟩
    · simp [h] at hj'
  · intro h
    have hc : j.can_retry = false := by
      cases hcc : j.can_retry
      · rfl
      · exact absurd (hcr.mp hcc) h
    unfold Job.retry
    simp [hc]

/-- C2 witness: a failed job with `retry_count = 2 < 3` retries successfully,
and one with `retry_count = 3 = max_retries` is rejected. -/
theorem c2_retry_contract_witness :
    (∃ j', jobFailedEx.retry 7 = .ok j') ∧
    jobExhaustedEx.retry 7 = .error "Job cannot be retried" :=
  ⟨(c2_retry_contract jobFailedEx 7).1.mpr ⟨rfl, by decide⟩,
   (c2_retry_contract jobExhaustedEx 7).2.2 (by decide)⟩

/-! ### C5 — progress monotonicity -/

/-- C5 counterexample: on a non-terminal (pending) job, `update_progress 0.8`
then `update_progress 0.2` strictly decreases the stored progress — the
source stores `clamp(p)` with no comparison against the previous value. -/
theorem c5_progress_counterexample :
    Job.isTerminal jobPendingEx.status = false ∧
    ((jobPendingEx.update_progress 1 (4/5)).update_progress 2 (1/5)).progress
      < (jobPendingEx.update_progress 1 (4/5)).progress := by
  constructor
  · rfl
  · show max 0 (min 1 (1/5 : ℚ)) < max 0 (min 1 (4/5 : ℚ))
    norm_num

/-- C5 amended: `update_progress(p)` stores exactly `max 0 (min 1 p)`,
ignoring the previous value, so the stored progress always lies in `[0, 1]`
and is non-decreasing across a sequence of calls only when the clamped
arguments themselves are non-decreasing. -/
theorem c5_progress_clamped (j : Job) (n1 n2 : Nat) (p q : ℚ) (hpq : p ≤ q) :
    (j.update_progress n1 p).progress = max 0 (min 1 p) ∧
    0 ≤ (j.update_progress n1 p).progress ∧
    (j.update_progress n1 p).progress ≤ 1 ∧
    (j.update_progress n1 p).progress ≤
      ((j.update_progress n1 p).update_progress n2 q).progress := by
  refine ⟨rfl, le_max_left 0 _, ?_, ?_⟩
  · exact max_le (by norm_num) (min_le_left 1 p)
  · show max 0 (min 1 p) ≤ max 0 (min 1 q)
    exact max_le_max le_rfl (min_le_min le_rfl hpq)

/-- C5 witness: concrete instantiation with `p = 1/5 ≤ q = 4/5`. -/
theorem c5_progress_clamped_witness :
    (jobPendingEx.update_progress 1 (1/5)).progress = max 0 (min 1 (1/5 : ℚ)) ∧
    0 ≤ (jobPendingEx.update_progress 1 (1/5)).progress ∧
    (jobPendingEx.update_progress 1 (1/5)).progress ≤ 1 ∧
    (jobPendingEx.update_progress 1 (1/5)).progress ≤
      ((jobPendingEx.update_progress 1 (1/5)).update_progress 2 (4/5)).progress :=
  c5_progress_clamped jobPendingEx 1 2 (1/5) (4/5) (by norm_num)

/-! ### C8 — consent activity -/

/-- C8 counterexample: a granted, unrevoked consent with `expiry_date = 5` is
still active at `now = 5` — the source deactivates only when `now > expiry`,
while the claim demands `now` strictly before the expiry. -/
theorem c8_expiry_counterexample :
    consentExpiringEx.is_active 5 = true ∧
    ¬ (consentExpiringEx.is_granted = true ∧ consentExpiringEx.revoked_at = none ∧
       (consentExpiringEx.expiry_date = none ∨
        ∀ e ∈ consentExpiringEx.expiry_date, 5 < e)) := by
  constructor
  · rfl
  · rintro ⟨-, -, h | h⟩
    · exact Option.noConfusion h
    · exact absurd (h 5 rfl) (by norm_num)

/-- C8 amended: `is_active` holds iff the consent is granted, not revoked,
and either has no expiry or the current time is at most (`≤`, not strictly
before) the expiry; in particular it is false whenever `revoked_at` is set,
regardless of the granted flag. -/
theorem c8_is_active_iff (c : ConsentRecord) (now : Nat) :
    c.is_active now = true ↔
      c.is_granted = true ∧ c.revoked_at = none ∧
      ∀ e ∈ c.expiry_date, now ≤ e := by
  unfold ConsentRecord.is_active
  cases hg : c.is_granted <;> cases hr : c.revoked_at <;>
    cases he : c.expiry_date <;>
      simp [hg, hr, he]

/-! ### C10 — revocation is permanent -/

/-- `revoked_at` stays set under every further lifecycle operation: neither
`grant_consent` nor `verify` touches it, and `revoke_consent` re-stamps it. -/
theorem ConsentOp.apply_preserves_revoked {c : ConsentRecord}
    (h : c.revoked_at.isSome = true) (op : ConsentOp) :
    (op.apply c).revoked_at.isSome = true := by
  cases op with
  | grant now doc =>
    unfold ConsentOp.apply ConsentRecord.grant_consent
    cases doc with
    | none => exact h
    | some d => by_cases hd : d = "" <;> simp [hd] <;> exact h
  | revoke now => rfl
  | verify now vb m => exact h

/-- A set `revoked_at` survives any sequence of lifecycle operations. -/
theorem ConsentOp.applyAll_preserves_revoked {c : ConsentRecord}
    (h : c.revoked_at.isSome = true) (ops : List ConsentOp) :
    (ConsentOp.applyAll c ops).revoked_at.isSome = true := by
  induction ops generalizing c with
  | nil => exact h
  | cons op rest ih =>
    simp only [ConsentOp.applyAll, List.foldl_cons]
    exact ih (ConsentOp.apply_preserves_revoked h op)

/-- C10 confirmed: once `revoke_consent` has been called, `is_active` is false
at every time and after every further sequence of lifecycle operations —
`grant_consent` re-sets the granted flag and timestamp but never clears
`revoked_at`, and `is_active` is false whenever `revoked_at` is set. -/
theorem c10_revocation_permanent (c : ConsentRecord) (now t : Nat)
    (ops : List ConsentOp) :
    (ConsentOp.applyAll (c.revoke_consent now) ops).is_active t = false := by
  have hrev := ConsentOp.applyAll_preserves_revoked
    (c := c.revoke_consent now) rfl ops
  unfold ConsentRecord.is_active
  simp [hrev]

/-! ### C6 — watermark reference freshness -/

/-- `splitext` is a decomposition: base and extension concatenate back to
the input. -/
theorem splitextCore_append (cs : List Char) :
    (splitextCore cs).1 ++ (splitextCore cs).2 = cs := by
  unfold splitextCore splitextAux
  split_ifs <;> simp [List.take_append_drop]

/-- The watermarked reference is exactly 12 characters (`"_watermarked"`)
longer than the input reference. -/
theorem watermarkedPath_length (p : String) :
    (watermarkedPath p).length = p.length + 12 := by
  have h := congrArg List.length (splitextCore_append p.toList)
  rw [List.length_append] at h
  have hw : (watermarkedPath p).length =
      (((splitextCore p.toList).1 ++ "_watermarked".toList)
        ++ (splitextCore p.toList).2).length := rfl
  rw [hw, List.length_append, List.length_append]
  have h12 : ("_watermarked".toList).length = 12 := rfl
  have hp : p.toList.length = p.length := rfl
  omega

/-- The watermarked reference always differs from the input reference. -/
theorem watermarkedPath_ne (p : String) : watermarkedPath p ≠ p := by
  intro h
  have hl := congrArg String.length h
  rw [watermarkedPath_length] at hl
  omega

/-- C6 counterexample: two `apply_watermark` calls on the same reference
`"a.mp4"` both return `"a_watermarked.mp4"` — the suffixing scheme is
deterministic, so the two returned references are equal, not distinct as the
claim requires. -/
theorem c6_same_reference_counterexample :
    applyWatermark ethicsEnvEx 7 {} 1 "a.mp4" "invisible" "LSB" none
      = .ok ("a_watermarked.mp4", wmLedgerAfterFirst) ∧
    applyWatermark ethicsEnvEx 8 wmLedgerAfterFirst 1 "a.mp4" "invisible" "LSB" none
      = .ok ("a_watermarked.mp4", wmLedgerAfterSecond) := by
  constructor <;> rfl

/-- C6 amended: each successful `apply_watermark` returns a reference that
differs from its input, and two calls on the same reference persist two
distinct `WatermarkRecord` rows (fresh ids) — but return the *same* new
reference, since the watermarked path is a pure function of the input path. -/
theorem c6_watermark_refs (env : EthicsEnv) (n1 n2 : Nat) (led : Ledger)
    (pid : Nat) (path r1 r2 : String) (led1 led2 : Ledger)
    (h1 : applyWatermark env n1 led pid path "invisible" "LSB" none = .ok (r1, led1))
    (h2 : applyWatermark env n2 led1 pid path "invisible" "LSB" none = .ok (r2, led2)) :
    r1 ≠ path ∧ r2 = r1 ∧
    led2.watermarks = led.watermarks ++
      [mkWatermarkRecord env n1 led pid path "invisible" "LSB" none,
       mkWatermarkRecord env n2 led1 pid path "invisible" "LSB" none] ∧
    (mkWatermarkRecord env n1 led pid path "invisible" "LSB" none).id ≠
      (mkWatermarkRecord env n2 led1 pid path "invisible" "LSB" none).id := by
  unfold applyWatermark at h1 h2
  by_cases hex : env.fileExists path = true
  · simp [hex] at h1 h2
    obtain ⟨hr1, hl1⟩ := h1
    obtain ⟨hr2, hl2⟩ := h2
    have hcp : (mkWatermarkRecord env n1 led pid path "invisible" "LSB" none).content_path
        = watermarkedPath path := rfl
    refine ⟨?_, ?_, ?_, ?_⟩
    · rw [← hr1, hcp]
      exact watermarkedPath_ne path
    · rw [← hr1, ← hr2]
      rfl
    · rw [← hl2, ← hl1]
      simp
    · show led.nextId ≠ led1.nextId
      rw [← hl1]
      simp
  · simp [hex] at h1

/-- C6 witness: concrete instantiation — both calls on `"a.mp4"` return
`"a_watermarked.mp4"`, and the two persisted records carry ids 0 and 1. -/
theorem c6_watermark_refs_witness :
    "a_watermarked.mp4" ≠ "a.mp4" ∧
    ("a_watermarked.mp4" : String) = "a_watermarked.mp4" ∧
    wmLedgerAfterSecond.watermarks = ({} : Ledger).watermarks ++
      [mkWatermarkRecord ethicsEnvEx 7 {} 1 "a.mp4" "invisible" "LSB" none,
       mkWatermarkRecord ethicsEnvEx 8 wmLedgerAfterFirst 1 "a.mp4" "invisible" "LSB" none] ∧
    (mkWatermarkRecord ethicsEnvEx 7 {} 1 "a.mp4" "invisible" "LSB" none).id ≠
      (mkWatermarkRecord ethicsEnvEx 8 wmLedgerAfterFirst 1 "a.mp4" "invisible" "LSB" none).id :=
  c6_watermark_refs ethicsEnvEx 7 8 {} 1 "a.mp4" "a_watermarked.mp4" "a_watermarked.mp4"
    wmLedgerAfterFirst wmLedgerAfterSecond rfl rfl

/-! ### C7 — provenance step recording -/

/-- When no record of the project exists, the `ORDER BY created_at DESC`
lookup returns nothing. -/
theorem selectMostRecent_eq_none (pid : Nat) (l : List ProvenanceRecord)
    (h : ∀ r ∈ l, r.project_id ≠ pid) : selectMostRecent pid l = none := by
  induction l with
  | nil => rfl
  | cons r rs ih =>
    unfold selectMostRecent
    rw [ih (fun x hx => h x (List.mem_cons_of_mem _ hx))]
    simp [h r (List.mem_cons_self _ _)]

/-- Conversely, an empty lookup means no record of the project is present. -/
theorem selectMostRecent_none_mem (pid : Nat) (l : List ProvenanceRecord)
    (h : selectMostRecent pid l = none) : ∀ x ∈ l, x.project_id ≠ pid := by
  induction l with
  | nil => intro x hx; cases hx
  | cons hd tl ih =>
    unfold selectMostRecent at h
    cases hsel : selectMostRecent pid tl with
    | none =>
      rw [hsel] at h
      by_cases hhd : hd.project_id = pid
      · simp [hhd] at h
      · intro x hx
        rcases List.mem_cons.mp hx with rfl | hx
        · exact hhd
        · exact ih hsel x hx
    | some p =>
      rw [hsel] at h
      obtain ⟨i0, best⟩ := p
      by_cases hhd : hd.project_id = pid
      · simp only [hhd, if_true] at h
        split_ifs at h
      · simp [hhd] at h

/-- The lookup returns a record of the project, at its index, with maximal
`created_at` among the project's records. -/
theorem selectMostRecent_spec (pid : Nat) (l : List ProvenanceRecord) :
    ∀ (i : Nat) (r : ProvenanceRecord), selectMostRecent pid l = some (i, r) →
    l.get? i = some r ∧ r.project_id = pid ∧
    ∀ x ∈ l, x.project_id = pid → x.created_at ≤ r.created_at := by
  induction l with
  | nil => intro i r h; exact absurd h (by simp [selectMostRecent])
  | cons hd tl ih =>
    intro i r h
    unfold selectMostRecent at h
    cases hsel : selectMostRecent pid tl with
    | none =>
      rw [hsel] at h
      by_cases hhd : hd.project_id = pid
      · simp [hhd] at h
        obtain ⟨rfl, rfl⟩ := h
        refine ⟨rfl, hhd, ?_⟩
        intro x hx hxpid
        rcases List.mem_cons.mp hx with rfl | hx
        · exact le_rfl
        · exact absurd hxpid (selectMostRecent_none_mem pid tl hsel x hx)
      · simp [hhd] at h
    | some p =>
      obtain ⟨i0, best⟩ := p
      rw [hsel] at h
      obtain ⟨hget, hpid, hmax⟩ := ih i0 best hsel
      by_cases hhd : hd.project_id = pid
      · by_cases hlt : best.created_at > hd.created_at
        · simp [hhd, hlt] at h
          obtain ⟨rfl, rfl⟩ := h
          refine ⟨hget, hpid, ?_⟩
          intro x hx hxpid
          rcases List.mem_cons.mp hx with rfl | hx
          · exact le_of_lt hlt
          · exact hmax x hx hxpid
        · simp [hhd, hlt] at h
          obtain ⟨rfl, rfl⟩ := h
          refine ⟨rfl, hhd, ?_⟩
          intro x hx hxpid
          rcases List.mem_cons.mp hx with rfl | hx
          · exact le_rfl
          · exact le_trans (hmax x hx hxpid) (le_of_not_lt hlt)
      · simp [hhd] at h
        obtain ⟨rfl, rfl⟩ := h
        refine ⟨hget, hpid, ?_⟩
        intro x hx hxpid
        rcases List.mem_cons.mp hx with rfl | hx
        · exact absurd hxpid hhd
        · exact hmax x hx hxpid

/-- C7 counterexample: recording a step for a project with no provenance
record yet does *not* create one — `update_provenance_record` on an empty
ledger is a silent no-op, leaving zero records where the claim requires a
newly created one. -/
theorem c7_no_record_counterexample :
    updateProvenanceRecord 7 {} 1 stepInputEx = ({} : Ledger) ∧
    (updateProvenanceRecord 7 {} 1 stepInputEx).provenance.length = 0 :=
  ⟨rfl, rfl⟩

/-- C7 amended: when the project has no provenance record,
`update_provenance_record` is a silent no-op (it creates nothing); when it
has some, the record of the project with maximal `created_at` (first such,
the query's `DESC ... first()`) gets exactly one step appended — the result
is the old list with only that position replaced, and the updated record's
chain is the old chain plus the one new step. -/
theorem c7_append_most_recent (now : Nat) (led : Ledger) (pid : Nat)
    (step : StepInput) :
    ((led.provenance.all fun x => x.project_id ≠ pid) = true →
      updateProvenanceRecord now led pid step = led) ∧
    (∀ i r, selectMostRecent pid led.provenance = some (i, r) →
      led.provenance.get? i = some r ∧
      r.project_id = pid ∧
      (led.provenance.all fun x =>
        x.project_id = pid → x.created_at ≤ r.created_at) = true ∧
      (updateProvenanceRecord now led pid step).provenance =
        led.provenance.set i (r.add_processing_step now step.step
          (step.model.getD "unknown") step.parameters (some step.timestamp)) ∧
      (r.add_processing_step now step.step (step.model.getD "unknown")
          step.parameters (some step.timestamp)).processing_chain =
        r.processing_chain ++
          [{ step := step.step, model := some (step.model.getD "unknown")
             parameters := step.parameters, timestamp := step.timestamp }]) := by
  constructor
  · intro hall
    have hnone : selectMostRecent pid led.provenance = none := by
      apply selectMostRecent_eq_none
      intro x hx
      exact of_decide_eq_true (List.all_eq_true.mp hall x hx)
    unfold updateProvenanceRecord
    rw [hnone]
  · intro i r hsel
    obtain ⟨hget, hpid, hmax⟩ := selectMostRecent_spec pid led.provenance i r hsel
    refine ⟨hget, hpid, ?_, ?_, rfl⟩
    · rw [List.all_eq_true]
      intro x hx
      exact decide_eq_true (fun hxpid => hmax x hx hxpid)
    · unfold updateProvenanceRecord
      rw [hsel]

/-- C7 witness: on a ledger holding exactly one record of project 1 (index
0, created at 3), recording a face-animation step appends it there. -/
theorem c7_append_most_recent_witness :
    ledgerProvEx.provenance.get? 0 = some provRecordEx ∧
    provRecordEx.project_id = 1 ∧
    (ledgerProvEx.provenance.all fun x =>
      x.project_id = 1 → x.created_at ≤ provRecordEx.created_at) = true ∧
    (updateProvenanceRecord 7 ledgerProvEx 1 stepInputEx).provenance =
      ledgerProvEx.provenance.set 0 (provRecordEx.add_processing_step 7
        stepInputEx.step (stepInputEx.model.getD "unknown")
        stepInputEx.parameters (some stepInputEx.timestamp)) ∧
    (provRecordEx.add_processing_step 7 stepInputEx.step
        (stepInputEx.model.getD "unknown") stepInputEx.parameters
        (some stepInputEx.timestamp)).processing_chain =
      provRecordEx.processing_chain ++
        [{ step := stepInputEx.step, model := some (stepInputEx.model.getD "unknown")
           parameters := stepInputEx.parameters, timestamp := stepInputEx.timestamp }] :=
  (c7_append_most_recent 7 ledgerProvEx 1 stepInputEx).2 0 provRecordEx rfl

/-! ### C4 — compliance score -/

/-- The consent block is non-negative. -/
theorem consentComponent_nonneg (now : Nat) (cs : List ConsentRecord)
    (p : Project) : 0 ≤ consentComponent now cs p := by
  unfold consentComponent
  split_ifs <;> norm_num

/-- The provenance block is non-negative. -/
theorem provenanceComponent_nonneg (provs : List ProvenanceRecord)
    (p : Project) : 0 ≤ provenanceComponent provs p := by
  unfold provenanceComponent
  split_ifs <;> positivity

/-- The watermark block never exceeds its 30 points (the `min` cap). -/
theorem watermarkComponent_le (wms : List WatermarkRecord) (p : Project) :
    watermarkComponent wms p ≤ 30 := by
  unfold watermarkComponent
  split_ifs
  · exact min_le_left _ _
  · norm_num
  · norm_num

/-- The watermark block is non-negative when the stored quality metrics are. -/
theorem watermarkComponent_nonneg (wms : List WatermarkRecord) (p : Project)
    (hq : ∀ r ∈ wms, 0 ≤ r.psnr.getD 0 ∧ 0 ≤ r.ssim.getD 0) :
    0 ≤ watermarkComponent wms p := by
  unfold watermarkComponent
  split_ifs
  · refine le_min (by norm_num) ?_
    refine mul_nonneg (div_nonneg ?_ (by positivity)) (by norm_num)
    refine List.sum_nonneg ?_
    intro x hx
    obtain ⟨r, hr, rfl⟩ := List.mem_map.mp hx
    exact add_nonneg (div_nonneg (hq r hr).1 (by norm_num)) (hq r hr).2
  · norm_num
  · norm_num

/-- C4 counterexample: a project with watermarking enabled (consent not
required, provenance disabled) and one watermark record with `psnr = 20`,
`ssim = 0.5`.  The source scores it 100 — the watermark block is
`min(30, avg(psnr/40 + ssim)·30) = 30` with no halving — while the claim's
formula `(snr/40 + ssim)/2` yields 85. -/
theorem c4_halving_counterexample :
    calculateComplianceScore 0 [] [wmRecordEx] [] projectWmEx = 100 ∧
    specComplianceScore 0 [] [wmRecordEx] [] projectWmEx = 85 ∧
    calculateComplianceScore 0 [] [wmRecordEx] [] projectWmEx ≠
      specComplianceScore 0 [] [wmRecordEx] [] projectWmEx := by
  refine ⟨?_, ?_, ?_⟩ <;>
    norm_num [calculateComplianceScore, specComplianceScore, consentComponent,
      watermarkComponent, provenanceComponent, wmRecordEx, projectWmEx]

/-- C4 amended: the score is the consent/watermark/provenance blocks summed
and clamped at 100, where the watermark block is `min(30, 30·avg(psnr/40 +
ssim))` — the per-record quality is *not* halved as the claim states.  The
total is always at most 100, the watermark block at most 30, and the total
is non-negative whenever the stored quality metrics are non-negative. -/
theorem c4_score_bounds (now : Nat) (consents : List ConsentRecord)
    (wms : List WatermarkRecord) (provs : List ProvenanceRecord)
    (project : Project)
    (hq : ∀ r ∈ wms, 0 ≤ r.psnr.getD 0 ∧ 0 ≤ r.ssim.getD 0) :
    calculateComplianceScore now consents wms provs project ≤ 100 ∧
    0 ≤ calculateComplianceScore now consents wms provs project ∧
    watermarkComponent wms project ≤ 30 := by
  refine ⟨min_le_left _ _, ?_, watermarkComponent_le wms project⟩
  refine le_min (by norm_num) ?_
  have h1 := consentComponent_nonneg now consents project
  have h2 := watermarkComponent_nonneg wms project hq
  have h3 := provenanceComponent_nonneg provs project
  linarith

/-- C4 witness: concrete instantiation at the counterexample project. -/
theorem c4_score_bounds_witness :
    calculateComplianceScore 0 [] [wmRecordEx] [] projectWmEx ≤ 100 ∧
    0 ≤ calculateComplianceScore 0 [] [wmRecordEx] [] projectWmEx ∧
    watermarkComponent [wmRecordEx] projectWmEx ≤ 30 :=
  c4_score_bounds 0 [] [wmRecordEx] [] projectWmEx (by
    intro r hr
    rw [List.mem_singleton] at hr
    subst hr
    constructor <;> norm_num [wmRecordEx])

/-! ### C3 — consent pre-check -/

/-- C3 counterexample: project 1 requires consent and the ledger holds no
consent record; running the pending job does fail it with the consent error
before any AI adapter call (empty trace), but the job does *not* remain
`pending` — `process_dubbing_job` calls `job.start()` (setting `running`)
before the ethics check, and the handler then sets `failed`. -/
theorem c3_pending_counterexample :
    processDubbingJob stageEnvEx ethicsEnvEx 7 stPipelineEx 1 =
      (.ok { stPipelineEx with
              jobs := [(jobConsentEx.start 7 none none).fail 7
                         "Consent required but not provided"] }, []) ∧
    ((jobConsentEx.start 7 none none).fail 7
        "Consent required but not provided").status = .failed ∧
    ((jobConsentEx.start 7 none none).fail 7
        "Consent required but not provided").status ≠ .pending := by
  refine ⟨rfl, rfl, ?_⟩
  intro h
  exact JobStatus.noConfusion h

/-- C3 amended: when the owning project requires consent and no active
consent exists, the run fails the job with the consent error before any AI
stage adapter is invoked (the adapter trace is empty and the ledger is
untouched), but the job is first transitioned to `running` by `start()` and
ends in `failed` — not left `pending`. -/
theorem c3_consent_precheck (env : StageEnv) (eenv : EthicsEnv) (now : Nat)
    (st : SystemState) (jid : Nat) (job : Job) (project : Project)
    (hj : st.jobs.find? (fun j => j.id = jid) = some job)
    (hp : st.projects.find? (fun p => p.id = job.project_id) = some project)
    (hrc : project.require_consent = true)
    (hnc : (checkConsentStatus now st.ledger project.id).has_consent = false) :
    processDubbingJob env eenv now st jid =
      (.ok { st with jobs := st.jobs.map (fun j0 => if j0.id = jid then
          (job.start now none none).fail now "Consent required but not provided"
        else j0) }, []) ∧
    ((job.start now none none).status = .running) ∧
    ((job.start now none none).fail now
        "Consent required but not provided").status = .failed ∧
    ((job.start now none none).fail now
        "Consent required but not provided").error_message =
      some "Consent required but not provided" := by
  refine ⟨?_, rfl, rfl, rfl⟩
  have hp2 : st.projects.find?
      (fun p => p.id = (Job.start now none none job).project_id) = some project := hp
  unfold processDubbingJob
  simp only [hj]
  unfold runPipelineBody
  simp only [hp2]
  rw [if_pos ⟨hrc, hnc⟩]

/-- C3 witness: concrete instantiation at the counterexample state. -/
theorem c3_consent_precheck_witness :
    processDubbingJob stageEnvEx ethicsEnvEx 7 stPipelineEx 1 =
      (.ok { stPipelineEx with jobs := stPipelineEx.jobs.map (fun j0 => if j0.id = 1 then
          (jobConsentEx.start 7 none none).fail 7 "Consent required but not provided"
        else j0) }, []) ∧
    ((jobConsentEx.start 7 none none).status = .running) ∧
    ((jobConsentEx.start 7 none none).fail 7
        "Consent required but not provided").status = .failed ∧
    ((jobConsentEx.start 7 none none).fail 7
        "Consent required but not provided").error_message =
      some "Consent required but not provided" :=
  c3_consent_precheck stageEnvEx ethicsEnvEx 7 stPipelineEx 1 jobConsentEx
    projectConsentEx rfl rfl rfl rfl

/-! ### C9 — run on a missing job -/

/-- C9 counterexample: running a job id with no matching job does not
surface any error — the source logs and returns `None`, so the call
completes normally (`.ok`) with the state unchanged, where the claim
requires a `NotFound` failure surfaced to the caller. -/
theorem c9_missing_job_counterexample :
    processDubbingJob stageEnvEx ethicsEnvEx 7 stNoJobsEx 1 =
      (.ok stNoJobsEx, []) := rfl

/-- C9 amended: when the job id does not exist, `process_dubbing_job`
returns silently (logging only): no exception reaches the caller, no state
is mutated, and no adapter is invoked.  (`cancel_job`, by contrast, does
raise on a lookup miss.) -/
theorem c9_missing_job_silent (env : StageEnv) (eenv : EthicsEnv) (now : Nat)
    (st : SystemState) (jid : Nat)
    (h : st.jobs.find? (fun j => j.id = jid) = none) :
    processDubbingJob env eenv now st jid = (.ok st, []) := by
  unfold processDubbingJob
  rw [h]

/-- C9 witness: concrete instantiation — state with one job (id 1), looked
up with id 99. -/
theorem c9_missing_job_silent_witness :
    processDubbingJob stageEnvEx ethicsEnvEx 7 stPipelineEx 99 =
      (.ok stPipelineEx, []) :=
  c9_missing_job_silent stageEnvEx ethicsEnvEx 7 stPipelineEx 99 rfl

end Dubbing
